import Mathlib

/-!
Shallow embedding of the `next-auth-permissions` library core
(`src/permissions.ts`, `src/server/config.ts`, `src/server/authUtils.ts`,
`src/server/middleware.ts`, `src/server/helpers.ts`), together with
theorems settling the specification claims about it.

Modelling conventions:
  * TypeScript `string` is `String`; an optional / nullable field is
    `Option _` (with `none` standing for absent, `undefined` or `null` —
    the code never distinguishes them where we conflate them).
  * JavaScript truthiness of a string value (`s` is truthy iff it is
    present and non-empty) is made explicit where the code relies on it
    (`||` fallbacks, `if (x)` guards on strings).
  * The configured session accessor is a zero-argument async function;
    it is modelled by the value it resolves to (`Option NextAuthSession`).
  * A TypeScript `Record<Role, Permission[]>` is an association list
    `List (String × List String)`; indexing `rec[k]` is `find?` on the
    first component, yielding `none` when the key is absent.
  * `throw new Error(...)` is modelled with `Except ConfigError _`.
-/

namespace NextAuthPermissions

/-- A user record carried by a session (src/types.ts `SessionWithRole.user`:
`id` and `role` required, `status` optional); `extra` models the open index
signature `[key: string]: any`. -/
structure User where
  id : String
  role : String
  status : Option String
  extra : List (String × String)
deriving DecidableEq

/-- A `next-auth` session as consumed by `requireAuthInternal`: the `user`
field may be absent (the code guards with `!session?.user`). -/
structure NextAuthSession where
  user : Option User
  extra : List (String × String)
deriving DecidableEq

/-- A session whose user is known present (src/types.ts `SessionWithRole`);
`requireAuthInternal` casts to this type after its `!session?.user` guard. -/
structure SessionWithRole where
  user : User
  extra : List (String × String)
deriving DecidableEq

/-- A `NextResponse`: `json` models `NextResponse.json({ message }, { status })`
as built by the library; `raw` stands for any other response a wrapped
handler may produce. -/
inductive Response where
  | json (message : String) (status : Nat)
  | raw (body : String) (status : Nat)
deriving DecidableEq

/-- Result type of the auth utilities (src/server/authUtils.ts `AuthResult`):
both fields are nullable exactly as in the source. -/
structure AuthResult where
  session : Option SessionWithRole
  error : Option Response
deriving DecidableEq

/-- Optional override messages (src/types.ts `PermissionConfig.messages`). -/
structure Messages where
  unauthorized : Option String
  banned : Option String
  insufficientPermissions : Option String
deriving DecidableEq

/-- Permission configuration (src/types.ts `PermissionConfig`). -/
structure PermissionConfig where
  rolePermissions : List (String × List String)
  isUserActive : Option (User → Bool)
  activeStatus : Option String
  messages : Option Messages

/-- The configured session accessor, modelled by the session it resolves to. -/
def AuthFn : Type := Option NextAuthSession

/-- JavaScript `opt || default` on an optional string: the default is used
when the value is absent or empty (falsy). -/
def jsOrString (s : Option String) (d : String) : String :=
  match s with
  | none => d
  | some v => if v = "" then d else v

/-- JavaScript `opt || default` on an optional number: the default is used
when the value is absent or zero (falsy). -/
def jsOrNat (n : Option Nat) (d : Nat) : Nat :=
  match n with
  | none => d
  | some v => if v = 0 then d else v

/-- Record lookup `rolePermissions[userRole]` on the association-list model. -/
def lookupRole (rolePermissions : List (String × List String)) (role : String) :
    Option (List String) :=
  (rolePermissions.find? (fun entry => entry.1 == role)).map Prod.snd

/-- src/permissions.ts `userCan`: `(rolePermissions[userRole] || []).includes(permission)`. -/
def userCan (userRole : String) (permission : String)
    (rolePermissions : List (String × List String)) : Bool :=
  let permissions := (lookupRole rolePermissions userRole).getD []
  permissions.contains permission

/-- src/permissions.ts `userCanAny`: `permissions.some(p => userCan(...))`. -/
def userCanAny (userRole : String) (permissions : List String)
    (rolePermissions : List (String × List String)) : Bool :=
  permissions.any (fun permission => userCan userRole permission rolePermissions)

/-- src/permissions.ts `userCanAll`: `permissions.every(p => userCan(...))`. -/
def userCanAll (userRole : String) (permissions : List String)
    (rolePermissions : List (String × List String)) : Bool :=
  permissions.all (fun permission => userCan userRole permission rolePermissions)

/-- The module-level mutable state of src/server/config.ts:
`authFn` and `permissionConfig`, both initially `null`. -/
structure ConfigState where
  authFn : Option AuthFn
  permissionConfig : Option PermissionConfig

/-- The state at module load: both holders are `null`. -/
def initialConfigState : ConfigState :=
  { authFn := none, permissionConfig := none }

/-- Argument of `configurePermissions`: `{ auth } & PermissionConfig`. -/
structure FullConfig where
  auth : AuthFn
  rolePermissions : List (String × List String)
  isUserActive : Option (User → Bool)
  activeStatus : Option String
  messages : Option Messages

/-- src/server/config.ts `configurePermissions`: unconditionally overwrites
both holders. -/
def configurePermissions (config : FullConfig) (_st : ConfigState) : ConfigState :=
  { authFn := some config.auth
  , permissionConfig := some
      { rolePermissions := config.rolePermissions
      , isUserActive := config.isUserActive
      , activeStatus := config.activeStatus
      , messages := config.messages } }

/-- The message of the error thrown by the getters when unconfigured. -/
def notConfiguredMessage : String :=
  "Permissions not configured. Call configurePermissions() before using middleware or utilities."

/-- The thrown programming error of src/server/config.ts. -/
inductive ConfigError where
  | notConfigured (message : String)
deriving DecidableEq

/-- src/server/config.ts `getAuth`: throws when `authFn` is `null`. -/
def getAuth (st : ConfigState) : Except ConfigError AuthFn :=
  match st.authFn with
  | none => .error (.notConfigured notConfiguredMessage)
  | some a => .ok a

/-- src/server/config.ts `getPermissionConfig`: throws when unconfigured. -/
def getPermissionConfig (st : ConfigState) : Except ConfigError PermissionConfig :=
  match st.permissionConfig with
  | none => .error (.notConfigured notConfiguredMessage)
  | some c => .ok c

/-- src/server/config.ts `resetConfig`: sets both holders back to `null`. -/
def resetConfig (_st : ConfigState) : ConfigState :=
  { authFn := none, permissionConfig := none }

/-- src/server/authUtils.ts `requireAuthInternal`: awaits the accessor and
checks `!session?.user`; on failure a fixed 401 `"Unauthorized"` denial, on
success the session cast to `SessionWithRole`. -/
def requireAuthInternal (auth : AuthFn) : AuthResult :=
  match auth with
  | none =>
    { error := some (Response.json "Unauthorized" 401), session := none }
  | some session =>
    match session.user with
    | none =>
      { error := some (Response.json "Unauthorized" 401), session := none }
    | some u =>
      { session := some { user := u, extra := session.extra }, error := none }

/-- The active-status rule of src/server/authUtils.ts lines 69-89: a custom
`isUserActive` predicate takes precedence; otherwise, when `activeStatus`
is defined, the `status` of the user must be strictly equal to it. Returns
`true` when the banned denial fires. -/
def bannedBy (config : PermissionConfig) (u : User) : Bool :=
  match config.isUserActive with
  | some isActive => ! isActive u
  | none =>
    match config.activeStatus with
    | some a => u.status != some a
    | none => false

/-- src/server/authUtils.ts `requireUserCanInternal`: authentication, then
the active-status rule, then the permission table, with early returns.
(The `!session` branch mirrors the source; it is unreachable because
`requireAuthInternal` returns a session exactly when it returns no error.) -/
def requireUserCanInternal (permission : String) (auth : AuthFn)
    (config : PermissionConfig) : AuthResult :=
  let r := requireAuthInternal auth
  match r.error with
  | some e => { error := some e, session := none }
  | none =>
    match r.session with
    | none =>
      { error := some (Response.json
          (jsOrString (config.messages.bind Messages.unauthorized) "Unauthorized") 401)
      , session := none }
    | some session =>
      if bannedBy config session.user then
        { error := some (Response.json
            (jsOrString (config.messages.bind Messages.banned) "Your account has been banned") 403)
        , session := none }
      else if ! userCan session.user.role permission config.rolePermissions then
        { error := some (Response.json
            (jsOrString (config.messages.bind Messages.insufficientPermissions)
              "Insufficient permissions") 403)
        , session := none }
      else
        { session := some session, error := none }

/-- src/server/authUtils.ts `requireAuth`: `requireAuthInternal(getAuth())`. -/
def requireAuth (st : ConfigState) : Except ConfigError AuthResult :=
  (getAuth st).map requireAuthInternal

/-- src/server/authUtils.ts `requireUserCan`: reads both configured values,
then delegates to `requireUserCanInternal`. -/
def requireUserCan (permission : String) (st : ConfigState) :
    Except ConfigError AuthResult := do
  let auth ← getAuth st
  let config ← getPermissionConfig st
  return requireUserCanInternal permission auth config

/-- A `NextRequest`, reduced to the observables the middleware manipulates:
its body and whether the body stream has been consumed. -/
structure NextRequest where
  body : String
  bodyUsed : Bool
deriving DecidableEq

/-- `request.clone()`: a fresh request with the same body and an unconsumed
body stream (the middleware clones before anything reads the body). -/
def NextRequest.clone (r : NextRequest) : NextRequest :=
  { body := r.body, bodyUsed := false }

/-- src/types.ts `APIContext`: `params`, optional `session`, optional
`resource`; `extra` models the open index signature. -/
structure APIContext where
  params : List (String × String)
  session : Option SessionWithRole
  resource : Option String
  extra : List (String × String)
deriving DecidableEq

/-- src/types.ts `APIHandler`. -/
def APIHandler : Type := NextRequest → APIContext → Response

/-- src/server/middleware.ts `withAuth`: `requireAuth`, return the error if
any, else call the handler with the session spread into the context. -/
def withAuth (handler : APIHandler) :
    NextRequest → APIContext → ConfigState → Except ConfigError Response :=
  fun request context st =>
    match requireAuth st with
    | .error e => .error e
    | .ok r =>
      match r.error with
      | some e => .ok e
      | none =>
        let newContext : APIContext := { context with session := r.session }
        .ok (handler request newContext)

/-- src/server/middleware.ts `withPermission`: as `withAuth` but through
`requireUserCan permission`. -/
def withPermission (permission : String) (handler : APIHandler) :
    NextRequest → APIContext → ConfigState → Except ConfigError Response :=
  fun request context st =>
    match requireUserCan permission st with
    | .error e => .error e
    | .ok r =>
      match r.error with
      | some e => .ok e
      | none =>
        let newContext : APIContext := { context with session := r.session }
        .ok (handler request newContext)

/-- Options of `withCustomPermission` (`errorMessage?`, `errorStatus?`). -/
structure CustomOptions where
  errorMessage : Option String
  errorStatus : Option Nat
deriving DecidableEq

/-- src/server/middleware.ts `withCustomPermission`: authenticate, guard a
null session, clone the request for the checker, deny on a false checker,
else call the handler with the original request and the enriched context. -/
def withCustomPermission
    (checker : SessionWithRole → APIContext → NextRequest → Bool)
    (options : Option CustomOptions) (handler : APIHandler) :
    NextRequest → APIContext → ConfigState → Except ConfigError Response :=
  fun request context st =>
    match requireAuth st with
    | .error e => .error e
    | .ok r =>
      match r.error with
      | some e => .ok e
      | none =>
        match r.session with
        | none =>
          .ok (Response.json
            (jsOrString (options.bind CustomOptions.errorMessage) "Unauthorized")
            (jsOrNat (options.bind CustomOptions.errorStatus) 401))
        | some session =>
          let clonedRequest := request.clone
          let canAccess := checker session context clonedRequest
          if ! canAccess then
            .ok (Response.json
              (jsOrString (options.bind CustomOptions.errorMessage) "Insufficient permissions")
              (jsOrNat (options.bind CustomOptions.errorStatus) 403))
          else
            let newContext : APIContext := { context with session := some session }
            .ok (handler request newContext)

/-- A resource as inspected by `checkOwnership` (src/server/helpers.ts):
each ownership field may be absent or null (`none`) or hold a string. -/
structure Resource where
  submittedByUserId : Option String
  userId : Option String
  ownerId : Option String
deriving DecidableEq

/-- JavaScript truthiness of `"f" in resource && resource.f` for an optional
string field: present and non-empty. -/
def truthy (s : Option String) : Bool :=
  match s with
  | none => false
  | some v => v != ""

/-- src/server/helpers.ts `checkOwnership`: the first truthy field among
`submittedByUserId`, `userId`, `ownerId` is compared with `session.user.id`;
otherwise `false`. -/
def checkOwnership (resource : Resource) (session : SessionWithRole) : Bool :=
  if truthy resource.submittedByUserId then
    resource.submittedByUserId == some session.user.id
  else if truthy resource.userId then
    resource.userId == some session.user.id
  else if truthy resource.ownerId then
    resource.ownerId == some session.user.id
  else
    false

/-- Modelled from the words of the claim (not the source), for comparison with
`checkOwnership`: compare the first PRESENT, NON-NULL field — with no
non-emptiness requirement — against the user id of the session. -/
def checkOwnershipClaim (resource : Resource) (session : SessionWithRole) : Bool :=
  match resource.submittedByUserId with
  | some v => v == session.user.id
  | none =>
    match resource.userId with
    | some v => v == session.user.id
    | none =>
      match resource.ownerId with
      | some v => v == session.user.id
      | none => false

/-- An `AuthResult` with exactly one populated side. -/
def oneSided (r : AuthResult) : Prop :=
  (∃ s, r.session = some s ∧ r.error = none) ∨
  (∃ e, r.error = some e ∧ r.session = none)

/-! ## Concrete fixtures shared by witnesses and counterexamples -/

/-- A user that is active and holds role `"USER"`. -/
def demoUser : User := { id := "u1", role := "USER", status := some "ACTIVE", extra := [] }

/-- The session the accessor of `demoFull` resolves to. -/
def demoNASession : NextAuthSession := { user := some demoUser, extra := [] }

/-- `demoNASession` after the cast performed by `requireAuthInternal`. -/
def demoSessionWR : SessionWithRole := { user := demoUser, extra := [] }

/-- A full configuration: role `"USER"` may `"a"`, active status `"ACTIVE"`. -/
def demoFull : FullConfig :=
  { auth := some demoNASession
  , rolePermissions := [("USER", ["a"])]
  , isUserActive := none
  , activeStatus := some "ACTIVE"
  , messages := none }

/-- The permission-config part of `demoFull`. -/
def demoPermConfig : PermissionConfig :=
  { rolePermissions := [("USER", ["a"])]
  , isUserActive := none
  , activeStatus := some "ACTIVE"
  , messages := none }

/-- The store state after configuring `demoFull`. -/
def demoState : ConfigState := configurePermissions demoFull initialConfigState

/-- A request with an unread body. -/
def demoRequest : NextRequest := { body := "hello", bodyUsed := false }

/-- A context carrying params and a resource, no session yet. -/
def demoContext : APIContext :=
  { params := [("id", "42")], session := none, resource := some "building", extra := [] }

/-- A handler that echoes the request body and reports whether a session
was merged into its context. -/
def demoHandler : APIHandler := fun request context =>
  Response.raw request.body (if context.session.isSome then 200 else 500)

/-- A checker that reads the body of the request it is given. -/
def demoChecker : SessionWithRole → APIContext → NextRequest → Bool :=
  fun _ _ r => r.body == "hello"

/-- Configuration for the C2 counterexample: the accessor yields no
session and a custom `unauthorized` message is configured. -/
def c2Full : FullConfig :=
  { auth := none
  , rolePermissions := [("USER", ["a"])]
  , isUserActive := none
  , activeStatus := none
  , messages := some
      { unauthorized := some "Please sign in", banned := none
      , insufficientPermissions := none } }

/-- Configuration for the C1 counterexample: a custom `isUserActive`
predicate approving everyone is configured alongside `activeStatus`. -/
def c1Config : PermissionConfig :=
  { rolePermissions := [("USER", ["a"])]
  , isUserActive := some (fun _ => true)
  , activeStatus := some "ACTIVE"
  , messages := none }

/-- A user whose status differs from the configured active status. -/
def c1User : User := { id := "u1", role := "USER", status := some "BANNED", extra := [] }

/-- The session of `c1User`. -/
def c1Session : NextAuthSession := { user := some c1User, extra := [] }

/-- Configuration for the C1 witness: only `activeStatus` is configured. -/
def w1Config : PermissionConfig :=
  { rolePermissions := [("USER", ["a"])]
  , isUserActive := none
  , activeStatus := some "ACTIVE"
  , messages := none }

/-- The session of `c1User`, reused against `w1Config`. -/
def w1Session : NextAuthSession := { user := some c1User, extra := [] }

/-- A resource whose `submittedByUserId` is present and non-null but empty. -/
def c8Resource : Resource :=
  { submittedByUserId := some "", userId := some "u1", ownerId := none }

/-- The session owning `"u1"`-keyed resources. -/
def c8Session : SessionWithRole :=
  { user := { id := "u1", role := "USER", status := none, extra := [] }, extra := [] }

/-- A resource owned through `submittedByUserId`. -/
def c8wResource : Resource :=
  { submittedByUserId := some "u1", userId := none, ownerId := none }

/-! ## Helper lemmas -/

/-- Case analysis for `requireAuthInternal`. -/
theorem requireAuthInternal_eq (auth : AuthFn) :
    (auth = none ∧ requireAuthInternal auth =
        { session := none, error := some (Response.json "Unauthorized" 401) }) ∨
    (∃ s, auth = some s ∧ s.user = none ∧ requireAuthInternal auth =
        { session := none, error := some (Response.json "Unauthorized" 401) }) ∨
    (∃ s u, auth = some s ∧ s.user = some u ∧ requireAuthInternal auth =
        { session := some { user := u, extra := s.extra }, error := none }) := by
  rcases auth with _ | ⟨su, sx⟩
  · exact .inl ⟨rfl, rfl⟩
  · rcases su with _ | u
    · exact .inr (.inl ⟨_, rfl, rfl, rfl⟩)
    · exact .inr (.inr ⟨_, u, rfl, rfl, rfl⟩)

/-- Every `requireAuthInternal` result is one-sided. -/
theorem oneSided_requireAuthInternal (auth : AuthFn) :
    oneSided (requireAuthInternal auth) := by
  rcases requireAuthInternal_eq auth with ⟨_, h⟩ | ⟨s, _, _, h⟩ | ⟨s, u, _, _, h⟩
  · exact .inr ⟨_, by rw [h], by rw [h]⟩
  · exact .inr ⟨_, by rw [h], by rw [h]⟩
  · exact .inl ⟨_, by rw [h], by rw [h]⟩

/-- Every `requireUserCanInternal` result is one-sided. -/
theorem oneSided_requireUserCanInternal (permission : String) (auth : AuthFn)
    (config : PermissionConfig) :
    oneSided (requireUserCanInternal permission auth config) := by
  rcases auth with _ | ⟨su, sx⟩
  · exact .inr ⟨_, rfl, rfl⟩
  · rcases su with _ | u
    · exact .inr ⟨_, rfl, rfl⟩
    · show oneSided (if bannedBy config u then _ else _)
      by_cases hb : bannedBy config u = true
      · rw [if_pos hb]; exact .inr ⟨_, rfl, rfl⟩
      · rw [if_neg hb]
        by_cases hc : userCan u.role permission config.rolePermissions = true
        · rw [hc]; exact .inl ⟨_, rfl, rfl⟩
        · rw [Bool.not_eq_true] at hc; rw [hc]; exact .inr ⟨_, rfl, rfl⟩

/-- A one-sided result with a session has no error. -/
theorem error_eq_none_of_session (r : AuthResult) (ho : oneSided r)
    (s : SessionWithRole) (h : r.session = some s) : r.error = none := by
  rcases ho with ⟨s2, _, h2⟩ | ⟨e, _, h2⟩
  · exact h2
  · rw [h2] at h; cases h

/-- `requireAuth` on a configured store is `requireAuthInternal` of the
configured accessor. -/
theorem requireAuth_ok (st : ConfigState) (a : AuthFn)
    (ha : getAuth st = .ok a) :
    requireAuth st = .ok (requireAuthInternal a) := by
  unfold requireAuth
  rw [ha]
  rfl

/-- `requireUserCan` on a configured store is `requireUserCanInternal` of
the configured accessor and config. -/
theorem requireUserCan_ok (permission : String) (st : ConfigState)
    (a : AuthFn) (config : PermissionConfig) (ha : getAuth st = .ok a)
    (hc : getPermissionConfig st = .ok config) :
    requireUserCan permission st = .ok (requireUserCanInternal permission a config) := by
  unfold requireUserCan
  simp only [ha, hc]
  rfl

/-! ## Claim theorems -/

/-- Claim C5: `userCan R P T` is true iff the sequence `T[R]` (taken as the
empty sequence when the role has no entry) contains `P`; in particular the
empty table grants no permission to any role. `userCan` is a total Lean
function, hence defined, side-effect-free, for all inputs including unknown
roles and permissions. -/
theorem userCan_spec (R P : String) (T : List (String × List String)) :
    (userCan R P T = true ↔ P ∈ (lookupRole T R).getD []) ∧
    userCan R P ([] : List (String × List String)) = false := by
  constructor
  · simp [userCan]
  · simp [userCan, lookupRole]

/-- Claim C5 witness: a concrete table where the lookup succeeds. -/
theorem userCan_spec_witness :
    userCan "USER" "a" [("USER", ["a"])] = true :=
  (userCan_spec "USER" "a" [("USER", ["a"])]).1.mpr (by decide)

/-- Claim C6: `userCanAny` is the disjunction and `userCanAll` the
conjunction of `userCan` over the permission list; on the empty list they
are `false` and `true` respectively, for every role and table. -/
theorem userCanAny_userCanAll_spec (R : String) (ps : List String)
    (T : List (String × List String)) :
    (userCanAny R ps T = true ↔ ∃ p ∈ ps, userCan R p T = true) ∧
    (userCanAll R ps T = true ↔ ∀ p ∈ ps, userCan R p T = true) ∧
    userCanAny R [] T = false ∧
    userCanAll R [] T = true := by
  refine ⟨?_, ?_, rfl, rfl⟩
  · simp [userCanAny]
  · simp [userCanAll]

/-- Claim C6 witness: the empty-list cases at a concrete role and table. -/
theorem userCanAny_userCanAll_spec_witness :
    userCanAny "USER" [] [("USER", ["a"])] = false ∧
    userCanAll "USER" [] [("USER", ["a"])] = true :=
  ⟨(userCanAny_userCanAll_spec "USER" [] [("USER", ["a"])]).2.2.1,
   (userCanAny_userCanAll_spec "USER" [] [("USER", ["a"])]).2.2.2⟩

/-- Claim C7: the getters fail with the NotConfigured error on the initial
state and after any `resetConfig` (which always yields the initial state);
every resolver and middleware operation then fails the same way until
`configurePermissions` runs again; `configurePermissions` overwrites both
held values unconditionally, with last-write-wins semantics. -/
theorem configStore_spec (st : ConfigState) (c c2 : FullConfig)
    (permission : String) (handler : APIHandler) (request : NextRequest)
    (context : APIContext)
    (checker : SessionWithRole → APIContext → NextRequest → Bool)
    (options : Option CustomOptions) :
    resetConfig st = initialConfigState ∧
    getAuth initialConfigState = .error (.notConfigured notConfiguredMessage) ∧
    getPermissionConfig initialConfigState =
      .error (.notConfigured notConfiguredMessage) ∧
    getAuth (resetConfig st) = .error (.notConfigured notConfiguredMessage) ∧
    getPermissionConfig (resetConfig st) =
      .error (.notConfigured notConfiguredMessage) ∧
    requireAuth (resetConfig st) = .error (.notConfigured notConfiguredMessage) ∧
    requireUserCan permission (resetConfig st) =
      .error (.notConfigured notConfiguredMessage) ∧
    withAuth handler request context (resetConfig st) =
      .error (.notConfigured notConfiguredMessage) ∧
    withPermission permission handler request context (resetConfig st) =
      .error (.notConfigured notConfiguredMessage) ∧
    withCustomPermission checker options handler request context (resetConfig st) =
      .error (.notConfigured notConfiguredMessage) ∧
    configurePermissions c st = configurePermissions c initialConfigState ∧
    getAuth (configurePermissions c st) = .ok c.auth ∧
    getPermissionConfig (configurePermissions c st) = .ok
      { rolePermissions := c.rolePermissions, isUserActive := c.isUserActive
      , activeStatus := c.activeStatus, messages := c.messages } ∧
    configurePermissions c2 (configurePermissions c st) = configurePermissions c2 st :=
  ⟨rfl, rfl, rfl, rfl, rfl, rfl, rfl, rfl, rfl, rfl, rfl, rfl, rfl, rfl⟩

/-- Claim C7 witness: the first getter failure at the initial state. -/
theorem configStore_spec_witness :
    getAuth initialConfigState = .error (.notConfigured notConfiguredMessage) :=
  (configStore_spec initialConfigState demoFull demoFull "a" demoHandler
    demoRequest demoContext demoChecker none).2.1

/-- Claim C2 counterexample: with the `unauthorized` message configured as
`"Please sign in"` and an accessor yielding no session, `requireAuth`
returns the fixed message `"Unauthorized"`, not the configured one:
`requireAuthInternal` hard-codes its message and `requireAuth` never reads
the permission config. -/
theorem requireAuth_message_counterexample :
    c2Full.messages = some
      { unauthorized := some "Please sign in", banned := none
      , insufficientPermissions := none } ∧
    requireAuth (configurePermissions c2Full initialConfigState) =
      .ok { session := none, error := some (Response.json "Unauthorized" 401) } ∧
    "Unauthorized" ≠ "Please sign in" :=
  ⟨rfl, rfl, by decide⟩

/-- Claim C2 (amended): for every configured accessor, if it yields no
session or a session without a user, `requireAuth` returns the denial side
with status 401 and the fixed message `"Unauthorized"` — the configured
`unauthorized` message is not consulted — and otherwise returns the
session of the accessor (with its user) as the success side. -/
theorem requireAuth_spec (st : ConfigState) (a : AuthFn)
    (h : getAuth st = .ok a) :
    requireAuth st = .ok (requireAuthInternal a) ∧
    ((a = none ∨ ∃ s, a = some s ∧ s.user = none) →
      requireAuthInternal a =
        { session := none, error := some (Response.json "Unauthorized" 401) }) ∧
    (∀ s u, a = some s → s.user = some u →
      requireAuthInternal a =
        { session := some { user := u, extra := s.extra }, error := none }) := by
  refine ⟨by simp [requireAuth, h, Except.map], ?_, ?_⟩
  · rintro (rfl | ⟨⟨su, sx⟩, rfl, hu⟩)
    · rfl
    · rcases su with _ | u
      · rfl
      · cases hu
  · rintro ⟨su, sx⟩ u rfl hu
    rcases su with _ | v
    · cases hu
    · cases hu; rfl

/-- Claim C2 witness: the amended theorem applied at the counterexample
configuration, whose accessor is configured and yields no session. -/
theorem requireAuth_spec_witness :
    requireAuth (configurePermissions c2Full initialConfigState) =
      .ok (requireAuthInternal none) :=
  (requireAuth_spec (configurePermissions c2Full initialConfigState) none rfl).1

/-- Claim C1 counterexample: `activeStatus` is configured as `"ACTIVE"`,
the session user status `"BANNED"` differs from it, and yet
`requireUserCanInternal` returns the success side rather than a 403 Banned
denial, because the configured `isUserActive` predicate (here approving
everyone) takes precedence over `activeStatus`. -/
theorem requireUserCan_order_counterexample :
    c1Config.activeStatus = some "ACTIVE" ∧
    c1User.status = some "BANNED" ∧
    c1User.status ≠ c1Config.activeStatus ∧
    requireUserCanInternal "a" (some c1Session) c1Config =
      { session := some { user := c1User, extra := [] }, error := none } :=
  ⟨rfl, rfl, by decide, rfl⟩

/-- Claim C1 (amended): the three checks run short-circuiting in the fixed
order authentication → active-status → permission: an authentication denial
is returned unchanged for every configuration and permission; when no
custom `isUserActive` predicate is configured, `activeStatus` is
configured, and the session user status differs from it, the 403 Banned
denial is returned without the permission table being consulted (for every
permission and table); otherwise, with the active-status rule passing, the
permission table alone decides between the 403 denial and success. -/
theorem requireUserCan_order_spec (permission : String) (auth : AuthFn)
    (config : PermissionConfig) :
    (∀ e, (requireAuthInternal auth).error = some e →
      requireUserCanInternal permission auth config =
        { session := none, error := some e }) ∧
    (∀ s u act, auth = some s → s.user = some u →
      config.isUserActive = none → config.activeStatus = some act →
      u.status ≠ some act →
      requireUserCanInternal permission auth config =
        { session := none
        , error := some (Response.json
            (jsOrString (config.messages.bind Messages.banned)
              "Your account has been banned") 403) }) ∧
    (∀ s u, auth = some s → s.user = some u → bannedBy config u = false →
      userCan u.role permission config.rolePermissions = false →
      requireUserCanInternal permission auth config =
        { session := none
        , error := some (Response.json
            (jsOrString (config.messages.bind Messages.insufficientPermissions)
              "Insufficient permissions") 403) }) ∧
    (∀ s u, auth = some s → s.user = some u → bannedBy config u = false →
      userCan u.role permission config.rolePermissions = true →
      requireUserCanInternal permission auth config =
        { session := some { user := u, extra := s.extra }, error := none }) := by
  refine ⟨?_, ?_, ?_, ?_⟩
  · intro e he
    rcases requireAuthInternal_eq auth with ⟨rfl, h⟩ | ⟨s, rfl, _, h⟩ | ⟨s, u, _, _, h⟩
    · rw [h] at he
      cases he
      rfl
    · rw [h] at he
      cases he
      simp only [requireUserCanInternal, h]
    · rw [h] at he
      exact Option.noConfusion he
  · rintro ⟨su, sx⟩ u act rfl hu hIA hAS hst
    obtain rfl : su = some u := hu
    have hb : bannedBy config u = true := by
      simp only [bannedBy, hIA, hAS]
      exact bne_iff_ne.mpr hst
    simp [requireUserCanInternal, requireAuthInternal, hb]
  · rintro ⟨su, sx⟩ u rfl hu hb hc
    obtain rfl : su = some u := hu
    simp [requireUserCanInternal, requireAuthInternal, hb, hc]
  · rintro ⟨su, sx⟩ u rfl hu hb hc
    obtain rfl : su = some u := hu
    simp [requireUserCanInternal, requireAuthInternal, hb, hc]

/-- Claim C1 witness: with only `activeStatus` configured and a banned
user, the banned denial fires even though the role holds the permission. -/
theorem requireUserCan_order_spec_witness :
    requireUserCanInternal "a" (some w1Session) w1Config =
      { session := none
      , error := some (Response.json "Your account has been banned" 403) } :=
  (requireUserCan_order_spec "a" (some w1Session) w1Config).2.1 w1Session c1User "ACTIVE"
    rfl rfl rfl rfl (by decide)

/-- Claim C9: every result of `requireAuthInternal`,
`requireUserCanInternal`, `requireAuth` and `requireUserCan` has exactly
one populated side: a session with a null error, or an error with a null
session, never both and never neither. -/
theorem authResult_oneSided_spec (permission : String) (auth : AuthFn)
    (config : PermissionConfig) (st : ConfigState) :
    oneSided (requireAuthInternal auth) ∧
    oneSided (requireUserCanInternal permission auth config) ∧
    (∀ r, requireAuth st = .ok r → oneSided r) ∧
    (∀ r, requireUserCan permission st = .ok r → oneSided r) := by
  obtain ⟨saf, spc⟩ := st
  refine ⟨oneSided_requireAuthInternal auth,
    oneSided_requireUserCanInternal permission auth config, ?_, ?_⟩
  · intro r h
    rcases saf with _ | a2
    · exact Except.noConfusion h
    · have h2 : Except.ok (requireAuthInternal a2) = Except.ok r := h
      injection h2 with h3
      subst h3
      exact oneSided_requireAuthInternal a2
  · intro r h
    rcases saf with _ | a2
    · exact Except.noConfusion h
    · rcases spc with _ | cfg2
      · exact Except.noConfusion h
      · have h2 : Except.ok (requireUserCanInternal permission a2 cfg2) = Except.ok r := h
        injection h2 with h3
        subst h3
        exact oneSided_requireUserCanInternal permission a2 cfg2

/-- Claim C9 witness: a configured store through `requireAuth`. -/
theorem authResult_oneSided_spec_witness :
    oneSided (requireAuthInternal (some demoNASession)) :=
  (authResult_oneSided_spec "a" (some demoNASession) demoPermConfig demoState).2.2.1
    (requireAuthInternal (some demoNASession)) rfl

/-- Claim C10: the null-session guard of `withCustomPermission` is
unreachable: for every configured accessor, whenever `requireAuth` returns
with a null error it returns a non-null session, so the branch returning
the 401 `"Unauthorized"` response can never execute. -/
theorem withCustomPermission_guard_unreachable (st : ConfigState)
    (r : AuthResult) (h : requireAuth st = .ok r) (he : r.error = none) :
    ∃ s, r.session = some s := by
  obtain ⟨saf, spc⟩ := st
  rcases saf with _ | a
  · exact Except.noConfusion h
  · have h2 : Except.ok (requireAuthInternal a) = Except.ok r := h
    injection h2 with h3
    subst h3
    rcases requireAuthInternal_eq a with ⟨_, hr⟩ | ⟨s, _, _, hr⟩ | ⟨s, u, _, _, hr⟩
    · rw [hr] at he
      simp at he
    · rw [hr] at he
      simp at he
    · exact ⟨_, by rw [hr]⟩

/-- Claim C10 witness: the configured demo store, whose accessor yields an
authenticated session. -/
theorem withCustomPermission_guard_unreachable_witness :
    ∃ s, (requireAuthInternal (some demoNASession)).session = some s :=
  withCustomPermission_guard_unreachable demoState
    (requireAuthInternal (some demoNASession)) rfl rfl

/-- Claim C8 counterexample: on a resource whose `submittedByUserId` is
present and non-null but empty, the code skips the field (JavaScript
truthiness) and compares `userId`, returning `true`, while the
first-present-non-null rule of the claim compares the empty `submittedByUserId` and
yields `false`. -/
theorem checkOwnership_counterexample :
    c8Resource.submittedByUserId = some "" ∧
    checkOwnership c8Resource c8Session = true ∧
    checkOwnershipClaim c8Resource c8Session = false :=
  ⟨rfl, by decide, by decide⟩

/-- Claim C8 (amended): `checkOwnership` tests, in priority order, whether
the resource exposes a present, non-null, non-empty `submittedByUserId`,
else `userId`, else `ownerId`, and returns the comparison of the first
such field with the user id of the session; a resource exposing no such field
yields false. -/
theorem checkOwnership_spec (r : Resource) (s : SessionWithRole) :
    (truthy r.submittedByUserId = true →
      (checkOwnership r s = true ↔ r.submittedByUserId = some s.user.id)) ∧
    (truthy r.submittedByUserId = false → truthy r.userId = true →
      (checkOwnership r s = true ↔ r.userId = some s.user.id)) ∧
    (truthy r.submittedByUserId = false → truthy r.userId = false →
      truthy r.ownerId = true →
      (checkOwnership r s = true ↔ r.ownerId = some s.user.id)) ∧
    (truthy r.submittedByUserId = false → truthy r.userId = false →
      truthy r.ownerId = false → checkOwnership r s = false) := by
  refine ⟨?_, ?_, ?_, ?_⟩
  · intro h1
    simp [checkOwnership, h1]
  · intro h1 h2
    simp [checkOwnership, h1, h2]
  · intro h1 h2 h3
    simp [checkOwnership, h1, h2, h3]
  · intro h1 h2 h3
    simp [checkOwnership, h1, h2, h3]

/-- Claim C8 witness: ownership through a non-empty `submittedByUserId`. -/
theorem checkOwnership_spec_witness :
    checkOwnership c8wResource c8Session = true ↔
      c8wResource.submittedByUserId = some c8Session.user.id :=
  (checkOwnership_spec c8wResource c8Session).1 (by decide)

/-- Claim C4: the handlers produced by `withAuth` and by
`withPermission permission` return an authorization denial as-is without
invoking the wrapped handler, and on success invoke the wrapped handler
with the original request and the original context extended with the
validated session, all other context fields unchanged, returning the
result of the handler. -/
theorem withAuth_withPermission_spec (permission : String)
    (handler : APIHandler) (request : NextRequest) (context : APIContext)
    (st : ConfigState) (a : AuthFn) (config : PermissionConfig)
    (ha : getAuth st = .ok a) (hc : getPermissionConfig st = .ok config) :
    (∀ e, (requireAuthInternal a).error = some e →
      withAuth handler request context st = .ok e) ∧
    (∀ s, (requireAuthInternal a).session = some s →
      withAuth handler request context st =
        .ok (handler request
          { params := context.params, session := some s
          , resource := context.resource, extra := context.extra })) ∧
    (∀ e, (requireUserCanInternal permission a config).error = some e →
      withPermission permission handler request context st = .ok e) ∧
    (∀ s, (requireUserCanInternal permission a config).session = some s →
      withPermission permission handler request context st =
        .ok (handler request
          { params := context.params, session := some s
          , resource := context.resource, extra := context.extra })) := by
  have hra := requireAuth_ok st a ha
  have hrc := requireUserCan_ok permission st a config ha hc
  refine ⟨?_, ?_, ?_, ?_⟩
  · intro e he
    simp [withAuth, hra, he]
  · intro s hs
    have he2 := error_eq_none_of_session _ (oneSided_requireAuthInternal a) s hs
    simp [withAuth, hra, he2, hs]
  · intro e he
    simp [withPermission, hrc, he]
  · intro s hs
    have he2 := error_eq_none_of_session _
      (oneSided_requireUserCanInternal permission a config) s hs
    simp [withPermission, hrc, he2, hs]

/-- Claim C4 witness: the success path of `withPermission` on the demo
configuration, with the session merged into the demo context. -/
theorem withAuth_withPermission_spec_witness :
    withPermission "a" demoHandler demoRequest demoContext demoState =
      .ok (demoHandler demoRequest
        { params := demoContext.params, session := some demoSessionWR
        , resource := demoContext.resource, extra := demoContext.extra }) :=
  (withAuth_withPermission_spec "a" demoHandler demoRequest demoContext demoState
    (some demoNASession) demoPermConfig rfl rfl).2.2.2 demoSessionWR rfl

/-- Claim C3: `withCustomPermission` clones the request (same body, fresh
unconsumed stream); it propagates any authentication denial without
invoking handler or checker; on an authenticated session it runs the
checker on the cloned request, and a false checker yields the denial
response built from `options.errorMessage` (default
`"Insufficient permissions"`, the default also covering a configured empty
message, as `||` does) and `options.errorStatus` (default 403, likewise
covering a configured 0) without invoking the handler, while a true
checker forwards to the wrapped handler with the original, unconsumed
request and the context extended with the session, returning its result. -/
theorem withCustomPermission_spec
    (checker : SessionWithRole → APIContext → NextRequest → Bool)
    (options : Option CustomOptions) (handler : APIHandler)
    (request : NextRequest) (context : APIContext) (st : ConfigState)
    (a : AuthFn) (ha : getAuth st = .ok a) :
    request.clone = { body := request.body, bodyUsed := false } ∧
    (∀ e, (requireAuthInternal a).error = some e →
      withCustomPermission checker options handler request context st = .ok e) ∧
    (∀ s, (requireAuthInternal a).session = some s →
      checker s context request.clone = false →
      withCustomPermission checker options handler request context st =
        .ok (Response.json
          (jsOrString (options.bind CustomOptions.errorMessage)
            "Insufficient permissions")
          (jsOrNat (options.bind CustomOptions.errorStatus) 403))) ∧
    (∀ s, (requireAuthInternal a).session = some s →
      checker s context request.clone = true →
      withCustomPermission checker options handler request context st =
        .ok (handler request
          { params := context.params, session := some s
          , resource := context.resource, extra := context.extra })) := by
  have hra := requireAuth_ok st a ha
  refine ⟨rfl, ?_, ?_, ?_⟩
  · intro e he
    simp [withCustomPermission, hra, he]
  · intro s hs hcheck
    have he2 := error_eq_none_of_session _ (oneSided_requireAuthInternal a) s hs
    simp [withCustomPermission, hra, he2, hs, NextRequest.clone] at hcheck ⊢
    simp [hcheck]
  · intro s hs hcheck
    have he2 := error_eq_none_of_session _ (oneSided_requireAuthInternal a) s hs
    simp [withCustomPermission, hra, he2, hs, NextRequest.clone] at hcheck ⊢
    simp [hcheck]

/-- Claim C3 witness: the success path with a checker reading the cloned
body and the handler then reading the original request. -/
theorem withCustomPermission_spec_witness :
    withCustomPermission demoChecker none demoHandler demoRequest demoContext demoState =
      .ok (demoHandler demoRequest
        { params := demoContext.params, session := some demoSessionWR
        , resource := demoContext.resource, extra := demoContext.extra }) :=
  (withCustomPermission_spec demoChecker none demoHandler demoRequest demoContext
    demoState (some demoNASession) rfl).2.2.2 demoSessionWR rfl (by decide)

end NextAuthPermissions
